import Mathlib

/-!
Verification of the differential cell-frequency analysis engine of the
teiko-technical repository, shallowly embedded in Lean 4.

Sources embedded here:
- teiko_technical.py : the overview SQL (percentage normalization), the
  Part-3 join query and data organization, and the two statistical
  analysis drafts (Mann-Whitney U and Welch t-test) with their shared
  Benjamini-Hochberg correction blocks;
- dashboard.py : the dashboard variant of the same pipeline (its filter,
  its data organization, its Welch t-test loop with empty-group omission,
  and its Benjamini-Hochberg block).

Numbers are modelled with exact rationals.  The IEEE double value NaN, and
the SQLite value NULL, are both modelled as `none` of an `Option` type; a
comment at each definition records which.  The transcendental parts of the
scipy tests (the Student-t and normal survival functions) are not rational
and are abstracted as function parameters; every branch decided by a claim
is reached without evaluating them.
-/

namespace Teiko

/-- The five tracked cell populations, in program order
(teiko_technical.py line 141, dashboard.py line 171). -/
def cell_types : List String :=
  ["b_cell", "cd8_t_cell", "cd4_t_cell", "nk_cell", "monocyte"]

/-- The FDR level hard-coded in every threshold computation (0.05). -/
def fdr_level : ℚ := 1/20

/-- One row of the sample_data table, following the schema created by
load_csv_to_sqlite (teiko_technical.py lines 21-39).  The response column
may be NULL in the data, hence an Option. -/
structure SampleRow where
  project : String
  subject : String
  condition : String
  age : ℤ
  sex : String
  treatment : String
  response : Option String
  sample : String
  sample_type : String
  time_from_treatment_start : ℤ
  b_cell : ℕ
  cd8_t_cell : ℕ
  cd4_t_cell : ℕ
  nk_cell : ℕ
  monocyte : ℕ
deriving DecidableEq

/-- total_count = b_cell + cd8_t_cell + cd4_t_cell + nk_cell + monocyte
(teiko_technical.py line 81). -/
def total_count (s : SampleRow) : ℕ :=
  s.b_cell + s.cd8_t_cell + s.cd4_t_cell + s.nk_cell + s.monocyte

/-- SQLite ROUND(x, 4): round to 4 decimal digits, halves away from zero.
All arguments in this development are non-negative, where that is
rounding half up. -/
def round4 (x : ℚ) : ℚ := (⌊x * 10000 + 1/2⌋ : ℚ) / 10000

/-- SQLite division: dividing by zero yields NULL (none), not an error. -/
def sqlite_div (a b : ℚ) : Option ℚ := if b = 0 then none else some (a / b)

/-- One row of the overview table (columns of teiko_technical.py
lines 85-90). -/
structure Obs where
  sample : String
  total_count : ℕ
  population : String
  count : ℕ
  percentage : Option ℚ
deriving DecidableEq

/-- percentage = ROUND(100.0 * count / total_count, 4), with SQLite
semantics (NULL when total_count is 0). -/
def pct (count total : ℕ) : Option ℚ :=
  (sqlite_div (100 * count) total).map round4

/-- The overview row a given population column contributes for a sample. -/
def obsRow (s : SampleRow) (popName : String) (count : SampleRow → ℕ) : Obs :=
  ⟨s.sample, total_count s, popName, count s, pct (count s) (total_count s)⟩

/-- The overview table: five UNION ALL blocks, one per population, each
scanning the whole sample table (teiko_technical.py lines 76-100). -/
def overviewTable (tbl : List SampleRow) : List Obs :=
  tbl.map (fun s => obsRow s "b_cell" SampleRow.b_cell)
    ++ tbl.map (fun s => obsRow s "cd8_t_cell" SampleRow.cd8_t_cell)
    ++ tbl.map (fun s => obsRow s "cd4_t_cell" SampleRow.cd4_t_cell)
    ++ tbl.map (fun s => obsRow s "nk_cell" SampleRow.nk_cell)
    ++ tbl.map (fun s => obsRow s "monocyte" SampleRow.monocyte)

/-- A concrete sample whose five population counts are all zero. -/
def zeroSample : SampleRow :=
  { project := "prj1", subject := "sbj001", condition := "melanoma",
    age := 57, sex := "M", treatment := "miraclib", response := some "yes",
    sample := "sample001", sample_type := "PBMC",
    time_from_treatment_start := 0,
    b_cell := 0, cd8_t_cell := 0, cd4_t_cell := 0, nk_cell := 0,
    monocyte := 0 }

/-- A concrete sample with each population count 1 (total_count 5). -/
def unitSample : SampleRow :=
  { project := "prj1", subject := "sbj002", condition := "melanoma",
    age := 60, sex := "F", treatment := "miraclib", response := some "no",
    sample := "sample002", sample_type := "PBMC",
    time_from_treatment_start := 0,
    b_cell := 1, cd8_t_cell := 1, cd4_t_cell := 1, nk_cell := 1,
    monocyte := 1 }

/-- The yes and no percentage vectors of one population entry of
data_by_population.  Entries are the raw joined percentages, which can be
NULL (none). -/
structure PopData where
  yes : List (Option ℚ)
  no : List (Option ℚ)
deriving DecidableEq

/-- The Part-3 join query of plot_cell_frequencies (teiko_technical.py
lines 123-133): each overview row joined to each sample row with the same
sample key, kept when sample_type is PBMC and condition and treatment
match; the selected columns are population, percentage, response. -/
def analysisRows (tbl : List SampleRow) (ov : List Obs)
    (condition treatment : String) :
    List (String × Option ℚ × Option String) :=
  ov.flatMap (fun o =>
    (tbl.filter (fun sd => sd.sample == o.sample
        && sd.sample_type == "PBMC"
        && sd.condition == condition
        && sd.treatment == treatment)).map
      (fun sd => (o.population, o.percentage, sd.response)))

/-- The dashboard WHERE clause on one sample row, with the three resolved
filter parameters (dashboard.py lines 157-159): plain equality on
condition, treatment and sample_type. -/
def dashFilter (condition treatment sampleType : String)
    (sd : SampleRow) : Bool :=
  sd.condition == condition && sd.treatment == treatment
    && sd.sample_type == sampleType

/-- The sample_type parameter the dashboard binds into its query
(dashboard.py lines 162-166): the literal string PBMC for the PBMC
choice, and the literal percent sign for the All choice. -/
def sampleTypeParam (choice : String) : String :=
  if choice == "PBMC" then "PBMC" else "%"

/-- The dashboard analysis query (dashboard.py lines 153-167): the join of
the overview with the sample table, filtered by dashFilter.  The selected
sample column is used only for displayed counts and is dropped here. -/
def dashAnalysisRows (tbl : List SampleRow) (ov : List Obs)
    (condition treatment sampleType : String) :
    List (String × Option ℚ × Option String) :=
  ov.flatMap (fun o =>
    (tbl.filter (fun sd => sd.sample == o.sample
        && dashFilter condition treatment sampleType sd)).map
      (fun sd => (o.population, o.percentage, sd.response)))

/-- The initial data_by_population dict: one empty yes/no pair per
population, in population order (teiko_technical.py line 142,
dashboard.py line 172). -/
def initData : List (String × PopData) :=
  cell_types.map (fun ct => (ct, ⟨[], []⟩))

/-- Append a percentage to the yes (resp true) or no (resp false) list of
the entry keyed ct. -/
def appendPct (resp : Bool) (v : Option ℚ) (d : List (String × PopData))
    (ct : String) : List (String × PopData) :=
  d.map (fun e =>
    if e.1 == ct then
      (e.1, if resp then ⟨e.2.yes ++ [v], e.2.no⟩ else ⟨e.2.yes, e.2.no ++ [v]⟩)
    else e)

/-- One step of the plot_cell_frequencies organization loop
(teiko_technical.py lines 144-146).  The inner dict has exactly the keys
yes and no, so when the population is tracked and the response is any
other value the lookup raises KeyError and the whole analysis aborts;
that abort is modelled as none. -/
def teikoAddRow (d : List (String × PopData))
    (row : String × Option ℚ × Option String) :
    Option (List (String × PopData)) :=
  if d.any (fun e => e.1 == row.1) then
    if row.2.2 == some "yes" then some (appendPct true row.2.1 d row.1)
    else if row.2.2 == some "no" then some (appendPct false row.2.1 d row.1)
    else none
  else some d

/-- Data organization of plot_cell_frequencies (teiko_technical.py
lines 140-146): fold the query rows into data_by_population, aborting
with KeyError (none) on the first tracked-population row whose response
is not exactly yes or no. -/
def organizeTeiko (rows : List (String × Option ℚ × Option String)) :
    Option (List (String × PopData)) :=
  rows.foldlM teikoAddRow initData

/-- One step of the dashboard organization loop (dashboard.py
lines 174-179): the row is appended only when the population is tracked
and the response is exactly yes or no; otherwise it is skipped silently. -/
def dashAddRow (d : List (String × PopData))
    (row : String × Option ℚ × Option String) :
    List (String × PopData) :=
  if d.any (fun e => e.1 == row.1) then
    if row.2.2 == some "yes" then appendPct true row.2.1 d row.1
    else if row.2.2 == some "no" then appendPct false row.2.1 d row.1
    else d
  else d

/-- Data organization of the dashboard (dashboard.py lines 170-179). -/
def organizeDash (rows : List (String × Option ℚ × Option String)) :
    List (String × PopData) :=
  rows.foldl dashAddRow initData

/-- Arithmetic mean, as np.mean / sum-over-len. -/
def meanQ (xs : List ℚ) : ℚ := xs.sum / xs.length

/-- Unbiased sample variance (denominator length - 1), as np.var with
ddof 1, used inside scipy ttest_ind. -/
def svarQ (xs : List ℚ) : ℚ :=
  ((xs.map (fun x => (x - meanQ xs) ^ 2)).sum) / ((xs.length : ℚ) - 1)

/-- scipy.stats.ttest_ind with equal_var False (Welch), as called at
teiko_technical.py line 248 and dashboard.py line 231, on float data that
may contain NaN (none).  The returned two-sided p-value is NaN (none)
when the input contains NaN, when either group has fewer than two
observations (its sample variance is 0/0), or when the pooled squared
standard error is zero with equal means (the statistic is 0/0); it is 0
when the pooled squared standard error is zero with unequal means (the
statistic is infinite).  Otherwise the p-value is a transcendental
function of the statistic and the Welch-Satterthwaite degrees of freedom;
that Student-t tail probability is abstracted as the parameter tsf,
applied to the squared statistic and the degrees of freedom (both exact
rationals). -/
def ttest_ind (tsf : ℚ → ℚ → ℚ) (ao bo : List (Option ℚ)) : Option ℚ :=
  if ao.any (fun v => v.isNone) || bo.any (fun v => v.isNone) then none
  else
    let a := ao.reduceOption
    let b := bo.reduceOption
    if a.length < 2 || b.length < 2 then none
    else
      let vn1 := svarQ a / a.length
      let vn2 := svarQ b / b.length
      if vn1 + vn2 = 0 then
        if meanQ a = meanQ b then none else some 0
      else
        let df := (vn1 + vn2) ^ 2 /
          (vn1 ^ 2 / ((a.length : ℚ) - 1) + vn2 ^ 2 / ((b.length : ℚ) - 1))
        some (tsf ((meanQ a - meanQ b) ^ 2 / (vn1 + vn2)) df)

/-- Midrank of a value within the combined list: ties share the average of
their rank range. -/
def midrank (c : List ℚ) (v : ℚ) : ℚ :=
  (c.countP (fun x => x < v) : ℚ) + ((c.countP (fun x => x = v) : ℚ) + 1) / 2

/-- Tie correction term: the sum over distinct values of t ^ 3 - t, where
t is the multiplicity of the value. -/
def tieTerm (c : List ℚ) : ℚ :=
  (c.dedup.map (fun v =>
    ((c.countP (fun x => x = v) : ℚ)) ^ 3 - (c.countP (fun x => x = v) : ℚ))).sum

/-- scipy.stats.mannwhitneyu with alternative two-sided and the default
method, as called at teiko_technical.py line 203.  On empty input scipy
raises ValueError, modelled none.  The data of interest here is tied, so
the method used is the normal approximation with tie correction and
continuity correction: with U the larger of U1 and U2, the standardized
statistic is (U - mean) / sqrt s2.  When the tie-corrected variance s2 is
zero, IEEE evaluation of that quotient gives an infinite or NaN statistic:
p is 1 when the corrected numerator is negative, 0 when positive, NaN
(none) when zero.  Otherwise the p-value min(2 * sf(z), 1) depends on the
normal survival function, abstracted as the parameter nsf applied to the
corrected numerator and to s2. -/
def mannwhitneyu (nsf : ℚ → ℚ → ℚ) (a b : List ℚ) : Option ℚ :=
  if a.length = 0 || b.length = 0 then none
  else
    let n1 : ℚ := a.length
    let n2 : ℚ := b.length
    let n : ℚ := n1 + n2
    let c := a ++ b
    let R1 := (a.map (midrank c)).sum
    let U1 := R1 - n1 * (n1 + 1) / 2
    let U := max U1 (n1 * n2 - U1)
    let mu := n1 * n2 / 2
    let s2 := n1 * n2 / 12 * ((n + 1) - tieTerm c / (n * (n - 1)))
    let num := U - mu - 1/2
    if s2 = 0 then
      if num < 0 then some 1
      else if 0 < num then some 0
      else none
    else some (min (2 * nsf num s2) 1)

/-- The Welch loop of analyze_frequencies_ttest (teiko_technical.py
lines 235-249): every population, in order, contributes an entry
(cell type, p-value); there is no empty-group guard, so a population with
an empty group gets the NaN p-value scipy returns for it.  The group
means are computed only for printing and are dropped here. -/
def teikoTtestPvalues (tsf : ℚ → ℚ → ℚ) (d : List (String × PopData)) :
    List (String × Option ℚ) :=
  d.map (fun e => (e.1, ttest_ind tsf e.2.yes e.2.no))

/-- The dashboard Welch loop (dashboard.py lines 222-232): a population
contributes an entry only when both of its groups are nonempty; otherwise
it is omitted.  The p-value computation is the same scipy call, here left
abstract as pfun; the group means are only displayed and are dropped. -/
def dashTested (pfun : List (Option ℚ) → List (Option ℚ) → Option ℚ)
    (d : List (String × PopData)) : List (String × Option ℚ) :=
  d.filterMap (fun e =>
    if 0 < e.2.yes.length ∧ 0 < e.2.no.length then
      some (e.1, pfun e.2.yes e.2.no)
    else none)

/-- IEEE comparison of p-values: any comparison involving NaN (none) is
false. -/
def floatLE : Option ℚ → Option ℚ → Bool
  | some x, some y => decide (x ≤ y)
  | _, _ => false

/-- IEEE strict comparison of a p-value with a threshold: false when the
p-value is NaN (none). -/
def floatLT : Option ℚ → ℚ → Bool
  | some x, y => decide (x < y)
  | none, _ => false

/-- Python sorted with the p-value as key (stable ascending), modelled by
a stable insertion sort. -/
def sortByP (l : List (String × Option ℚ)) : List (String × Option ℚ) :=
  l.insertionSort (fun a b => floatLE a.2 b.2 = true)

/-- One row of the displayed significance table: cell type, p-value, BH
threshold and significance flag. -/
structure CorrectedResult where
  cell_type : String
  p_value : Option ℚ
  threshold : ℚ
  significant : Bool
deriving DecidableEq

/-- The Benjamini-Hochberg block of analyze_frequencies_mw
(teiko_technical.py lines 211-222): sort the (cell type, p-value) pairs
ascending by p-value; at 0-based rank the threshold is
(rank + 1) / len(cell_types) * 0.05, and the pair is significant exactly
when p_value < threshold, each rank compared independently and strictly. -/
def mwCorrection (cellTypes : List String)
    (p_values : List (String × Option ℚ)) : List CorrectedResult :=
  (sortByP p_values).enum.map (fun e =>
    ⟨e.2.1, e.2.2, ((e.1 : ℚ) + 1) / cellTypes.length * fdr_level,
      floatLT e.2.2 (((e.1 : ℚ) + 1) / cellTypes.length * fdr_level)⟩)

/-- The Benjamini-Hochberg block of analyze_frequencies_ttest
(teiko_technical.py lines 256-267), transcribed from its own lines: the
same sort, the same threshold (rank + 1) / len(cell_types) * 0.05, the
same strict independent comparison. -/
def ttestCorrection (cellTypes : List String)
    (p_values : List (String × Option ℚ)) : List CorrectedResult :=
  (sortByP p_values).enum.map (fun e =>
    ⟨e.2.1, e.2.2, ((e.1 : ℚ) + 1) / cellTypes.length * fdr_level,
      floatLT e.2.2 (((e.1 : ℚ) + 1) / cellTypes.length * fdr_level)⟩)

/-- The dashboard Benjamini-Hochberg block (dashboard.py lines 234-251):
identical computation, with len(cell_types) the length of the fixed
five-population list, whatever the number of tested pairs. -/
def dashCorrection (p_values : List (String × Option ℚ)) :
    List CorrectedResult :=
  (sortByP p_values).enum.map (fun e =>
    ⟨e.2.1, e.2.2, ((e.1 : ℚ) + 1) / cell_types.length * fdr_level,
      floatLT e.2.2 (((e.1 : ℚ) + 1) / cell_types.length * fdr_level)⟩)

/-- The standard BH step-up decision rule as the spec states it, for
comparison with the code: with the p-values sorted ascending and ranked
from 1, let rstar be the largest rank r with p(r) ≤ (r / total) * fdr;
exactly the ranks up to rstar are significant.  This definition follows
the spec text, not the code. -/
def stepUpFlags (sortedP : List ℚ) (total : ℕ) (fdr : ℚ) : List Bool :=
  let ranked := sortedP.enum
  let passing := ranked.filter
    (fun e => decide (e.2 ≤ ((e.1 : ℚ) + 1) / total * fdr))
  let rstar : ℕ := passing.foldl (fun m e => max m (e.1 + 1)) 0
  ranked.map (fun e => decide (e.1 + 1 ≤ rstar))

/-- The full Part-3 pipeline of teiko_technical.py: normalize (overview),
join and filter, organize by population and response, test every
population with Welch, and apply the BH block — none when the
organization step aborts on a malformed response. -/
def pipeline (tsf : ℚ → ℚ → ℚ) (tbl : List SampleRow)
    (condition treatment : String) : Option (List CorrectedResult) :=
  (organizeTeiko (analysisRows tbl (overviewTable tbl) condition treatment)).map
    (fun d => ttestCorrection cell_types (teikoTtestPvalues tsf d))

/-- A concrete sample whose response label is neither yes nor no. -/
def unknownRespSample : SampleRow :=
  { project := "prj1", subject := "sbj003", condition := "melanoma",
    age := 49, sex := "F", treatment := "miraclib",
    response := some "unknown",
    sample := "sample003", sample_type := "PBMC",
    time_from_treatment_start := 0,
    b_cell := 1, cd8_t_cell := 2, cd4_t_cell := 3, nk_cell := 4,
    monocyte := 0 }

/-- Concrete tested pairs whose p-values are 0.011, 0.012, 0.2, 0.2, 0.2:
an input on which the independent strict rule of the code and the
step-up rule of the spec disagree, far from any floating-point rounding
boundary. -/
def exampleP : List (String × Option ℚ) :=
  [("b_cell", some (11/1000)), ("cd8_t_cell", some (3/250)),
   ("cd4_t_cell", some (1/5)), ("nk_cell", some (1/5)),
   ("monocyte", some (1/5))]

/-- Concrete organized data in which cd8_t_cell has an empty responder
group and nk_cell an empty non-responder group, so the dashboard tests
only the remaining three populations. -/
def exampleOmitted : List (String × PopData) :=
  [("b_cell", ⟨[some 1, some 2], [some 3, some 5]⟩),
   ("cd8_t_cell", ⟨[], [some 3]⟩),
   ("cd4_t_cell", ⟨[some 2, some 4], [some 1, some 2]⟩),
   ("nk_cell", ⟨[some 5], []⟩),
   ("monocyte", ⟨[some 1, some 3], [some 1, some 4]⟩)]

/-- A concrete stand-in for the p-value computation, giving small distinct
defined values to the three tested populations of exampleOmitted. -/
def examplePfun : List (Option ℚ) → List (Option ℚ) → Option ℚ :=
  fun a b => some ((a.reduceOption.sum + 3 * b.reduceOption.sum) / 100)

/-- Concrete organized data in which b_cell has an empty responder group
while all other populations have two observations per group. -/
def emptyGroupData : List (String × PopData) :=
  [("b_cell", ⟨[], [some 10]⟩),
   ("cd8_t_cell", ⟨[some 1, some 2], [some 3, some 4]⟩),
   ("cd4_t_cell", ⟨[some 1, some 2], [some 3, some 4]⟩),
   ("nk_cell", ⟨[some 1, some 2], [some 3, some 4]⟩),
   ("monocyte", ⟨[some 1, some 2], [some 3, some 4]⟩)]

/-- Concrete organized data in which every population has the identical
constant groups [5, 5, 5] and [5, 5, 5]. -/
def constData : List (String × PopData) :=
  cell_types.map (fun ct => (ct, ⟨[some 5, some 5, some 5],
    [some 5, some 5, some 5]⟩))

/-- Rounding to 4 decimal digits moves a value by at most 1/20000. -/
theorem round4_bounds (x : ℚ) :
    x - 1/20000 ≤ round4 x ∧ round4 x ≤ x + 1/20000 := by
  have h1 : (⌊x * 10000 + 1/2⌋ : ℚ) ≤ x * 10000 + 1/2 :=
    Int.floor_le _
  have h2 : x * 10000 + 1/2 - 1 < (⌊x * 10000 + 1/2⌋ : ℚ) :=
    Int.sub_one_lt_floor _
  unfold round4
  constructor <;> linarith

/-- C4 counterexample: for a sample whose five counts are all zero, the
overview (the frequency normalizer) does not fail at all — it silently
produces five observation rows whose percentage is NULL (SQLite division
by zero yields NULL), contradicting the claim that such a sample makes
normalization fail with DivisionByZero and that NULL percentages are
never silently produced. -/
theorem C4_counterexample :
    overviewTable [zeroSample] =
      [⟨"sample001", 0, "b_cell", 0, none⟩,
       ⟨"sample001", 0, "cd8_t_cell", 0, none⟩,
       ⟨"sample001", 0, "cd4_t_cell", 0, none⟩,
       ⟨"sample001", 0, "nk_cell", 0, none⟩,
       ⟨"sample001", 0, "monocyte", 0, none⟩] := by decide

/-- C4 (amended): for every sample whose five population counts are all
zero, the normalizer does not raise; it produces one observation per
population whose percentage is NULL (modelled none), because SQLite
division by zero yields NULL. -/
theorem C4_zero_total_yields_null (s : SampleRow) (h : total_count s = 0) :
    (overviewTable [s]).map Obs.population = cell_types ∧
    (overviewTable [s]).map Obs.percentage = [none, none, none, none, none] := by
  have hq : ((total_count s : ℚ)) = 0 := by exact_mod_cast h
  constructor
  · simp [overviewTable, obsRow, cell_types]
  · simp [overviewTable, obsRow, pct, sqlite_div, hq, h]

/-- Witness for C4_zero_total_yields_null at the concrete all-zero
sample. -/
theorem C4_zero_total_witness :
    total_count zeroSample = 0 ∧
      ((overviewTable [zeroSample]).map Obs.population = cell_types ∧
        (overviewTable [zeroSample]).map Obs.percentage =
          [none, none, none, none, none]) :=
  ⟨by decide, C4_zero_total_yields_null zeroSample (by decide)⟩

/-- C7: for every sample with positive total count, the overview yields
exactly five observations, one per population in the fixed order, each
percentage being 100 * count / total_count rounded to 4 decimal digits,
and the five percentages sum to 100 within 1/1000. -/
theorem C7_normalize_sums_to_100 (s : SampleRow) (h : 0 < total_count s) :
    (overviewTable [s]).map Obs.population = cell_types ∧
    (overviewTable [s]).map Obs.percentage =
      [some (round4 (100 * s.b_cell / (total_count s : ℚ))),
       some (round4 (100 * s.cd8_t_cell / (total_count s : ℚ))),
       some (round4 (100 * s.cd4_t_cell / (total_count s : ℚ))),
       some (round4 (100 * s.nk_cell / (total_count s : ℚ))),
       some (round4 (100 * s.monocyte / (total_count s : ℚ)))] ∧
    |round4 (100 * s.b_cell / (total_count s : ℚ)) +
        round4 (100 * s.cd8_t_cell / (total_count s : ℚ)) +
        round4 (100 * s.cd4_t_cell / (total_count s : ℚ)) +
        round4 (100 * s.nk_cell / (total_count s : ℚ)) +
        round4 (100 * s.monocyte / (total_count s : ℚ)) - 100| ≤ 1/1000 := by
  have hq : ((total_count s : ℚ)) ≠ 0 := by
    exact_mod_cast h.ne'
  refine ⟨by simp [overviewTable, obsRow, cell_types], ?_, ?_⟩
  · simp [overviewTable, obsRow, pct, sqlite_div, hq, h.ne']
  · have hT : (s.b_cell : ℚ) + s.cd8_t_cell + s.cd4_t_cell + s.nk_cell +
        s.monocyte = (total_count s : ℚ) := by
      unfold total_count; push_cast; ring
    have hsum : 100 * (s.b_cell : ℚ) / (total_count s : ℚ) +
        100 * (s.cd8_t_cell : ℚ) / (total_count s : ℚ) +
        100 * (s.cd4_t_cell : ℚ) / (total_count s : ℚ) +
        100 * (s.nk_cell : ℚ) / (total_count s : ℚ) +
        100 * (s.monocyte : ℚ) / (total_count s : ℚ) = 100 := by
      field_simp
      linarith [hT]
    have b1 := round4_bounds (100 * (s.b_cell : ℚ) / (total_count s : ℚ))
    have b2 := round4_bounds (100 * (s.cd8_t_cell : ℚ) / (total_count s : ℚ))
    have b3 := round4_bounds (100 * (s.cd4_t_cell : ℚ) / (total_count s : ℚ))
    have b4 := round4_bounds (100 * (s.nk_cell : ℚ) / (total_count s : ℚ))
    have b5 := round4_bounds (100 * (s.monocyte : ℚ) / (total_count s : ℚ))
    rw [abs_le]
    exact ⟨by linarith [b1.1, b2.1, b3.1, b4.1, b5.1],
           by linarith [b1.2, b2.2, b3.2, b4.2, b5.2]⟩

/-- Witness for C7_normalize_sums_to_100 at a concrete sample with
counts 1,1,1,1,1. -/
theorem C7_normalize_witness :
    0 < total_count unitSample ∧
      ((overviewTable [unitSample]).map Obs.population = cell_types ∧
        (overviewTable [unitSample]).map Obs.percentage =
          [some (round4 (100 * unitSample.b_cell / (total_count unitSample : ℚ))),
           some (round4 (100 * unitSample.cd8_t_cell / (total_count unitSample : ℚ))),
           some (round4 (100 * unitSample.cd4_t_cell / (total_count unitSample : ℚ))),
           some (round4 (100 * unitSample.nk_cell / (total_count unitSample : ℚ))),
           some (round4 (100 * unitSample.monocyte / (total_count unitSample : ℚ)))] ∧
        |round4 (100 * unitSample.b_cell / (total_count unitSample : ℚ)) +
            round4 (100 * unitSample.cd8_t_cell / (total_count unitSample : ℚ)) +
            round4 (100 * unitSample.cd4_t_cell / (total_count unitSample : ℚ)) +
            round4 (100 * unitSample.nk_cell / (total_count unitSample : ℚ)) +
            round4 (100 * unitSample.monocyte / (total_count unitSample : ℚ)) -
            100| ≤ 1/1000) :=
  ⟨by decide, C7_normalize_sums_to_100 unitSample (by decide)⟩

/-- C8: the dashboard All (wildcard) choice binds the literal percent sign
into an equality comparison on sample_type, so a sample that passes the
condition and treatment filters and has sample_type PBMC is excluded by
the wildcard filter: the wildcard matches nothing instead of everything.
The select box and the percent-sign pattern make the match-any intent
clear; using equality instead of LIKE is the slip. -/
theorem C8_wildcard_matches_nothing :
    unitSample.condition = "melanoma" ∧
    unitSample.treatment = "miraclib" ∧
    unitSample.sample_type = "PBMC" ∧
    sampleTypeParam "All" = "%" ∧
    dashFilter "melanoma" "miraclib" (sampleTypeParam "All") unitSample
      = false ∧
    dashAnalysisRows [unitSample] (overviewTable [unitSample]) "melanoma"
      "miraclib" (sampleTypeParam "All") = [] := by decide

/-- C5 counterexample: a sample that passes the Part-3 filter but carries
the response label unknown is not silently excluded by
plot_cell_frequencies: its first joined row raises KeyError in the
organization loop (the inner dict only has the keys yes and no), aborting
the whole analysis, modelled as none. -/
theorem C5_counterexample :
    organizeTeiko (analysisRows [unknownRespSample]
      (overviewTable [unknownRespSample]) "melanoma" "miraclib") = none := by
  decide

/-- C3 counterexample: on identical groups [5, 5, 5] and [5, 5, 5] for
every population, the Welch analysis loop completes normally and returns
an entry for every population whose p-value is the NaN scipy computes
(modelled none) — no IndeterminateTest failure exists anywhere in the
code — while the Mann-Whitney p-value on those groups is 1, which is
at least 0.99. -/
theorem C3_counterexample :
    teikoTtestPvalues (fun _ _ => 0) constData
      = cell_types.map (fun ct => (ct, none)) ∧
    mannwhitneyu (fun _ _ => 0) [5, 5, 5] [5, 5, 5] = some 1 := by
  constructor
  · norm_num [teikoTtestPvalues, constData, cell_types, ttest_ind, meanQ,
      svarQ, List.reduceOption_cons_of_some, List.reduceOption_nil]
  · norm_num [mannwhitneyu, midrank, tieTerm, List.dedup_cons_of_mem,
      List.dedup_cons_of_not_mem, List.countP_cons, List.countP_nil]

/-- C6 counterexample: in analyze_frequencies_ttest, the population
b_cell, whose responder group is empty, is not omitted: it appears in the
tester output with the NaN p-value (none), and consequently also appears
in the corrector output. -/
theorem C6_counterexample :
    ("b_cell", (none : Option ℚ)) ∈
      teikoTtestPvalues (fun _ _ => 0) emptyGroupData ∧
    "b_cell" ∈ (ttestCorrection cell_types
      (teikoTtestPvalues (fun _ _ => 0) emptyGroupData)).map
        CorrectedResult.cell_type := by
  have hl : teikoTtestPvalues (fun _ _ => 0) emptyGroupData =
      [("b_cell", none), ("cd8_t_cell", some 0), ("cd4_t_cell", some 0),
       ("nk_cell", some 0), ("monocyte", some 0)] := by
    norm_num [teikoTtestPvalues, emptyGroupData, ttest_ind, meanQ, svarQ,
      List.reduceOption_cons_of_some, List.reduceOption_nil]
    exact fun h => by simp at h
  rw [hl]
  constructor
  · simp
  · norm_num [ttestCorrection, sortByP, cell_types, fdr_level,
      List.insertionSort, List.orderedInsert, floatLE, floatLT,
      List.enum, List.enumFrom]

/-- C10: the Benjamini-Hochberg blocks of analyze_frequencies_mw and of
analyze_frequencies_ttest are the same function of the (population,
p-value) pairs: same ordering, same ranks, same thresholds, same
significance flags. -/
theorem C10_same_correction (cellTypes : List String)
    (p_values : List (String × Option ℚ)) :
    mwCorrection cellTypes p_values = ttestCorrection cellTypes p_values :=
  rfl

/-- C9: the pipeline is deterministic — on equal sample tables, equal
filter parameters and the same test computation, two runs produce equal
reports.  Every stage is a pure function of its inputs. -/
theorem C9_deterministic (tsf : ℚ → ℚ → ℚ) (tbl₁ tbl₂ : List SampleRow)
    (c₁ c₂ t₁ t₂ : String) (h1 : tbl₁ = tbl₂) (h2 : c₁ = c₂)
    (h3 : t₁ = t₂) :
    pipeline tsf tbl₁ c₁ t₁ = pipeline tsf tbl₂ c₂ t₂ := by
  rw [h1, h2, h3]

/-- Witness for C9_deterministic on a concrete table and filter. -/
theorem C9_deterministic_witness :
    pipeline (fun _ _ => 0) [unitSample] "melanoma" "miraclib" =
      pipeline (fun _ _ => 0) [unitSample] "melanoma" "miraclib" :=
  C9_deterministic (fun _ _ => 0) [unitSample] [unitSample] "melanoma"
    "melanoma" "miraclib" "miraclib" rfl rfl rfl

/-- C1 counterexample: for the tested p-values 0.011, 0.012, 0.2, 0.2,
0.2 the code flags only rank 2 (0.011 is not below its rank-1 threshold
0.01), while the step-up rule of the claim flags ranks 1 and 2 (rstar is
2, and every rank up to rstar is declared significant).  The corrector is
therefore not the step-up rule. -/
theorem C1_counterexample :
    (ttestCorrection cell_types exampleP).map CorrectedResult.significant
      = [false, true, false, false, false] ∧
    stepUpFlags [11/1000, 3/250, 1/5, 1/5, 1/5] cell_types.length fdr_level
      = [true, true, false, false, false] := by
  constructor
  · norm_num [ttestCorrection, sortByP, exampleP, cell_types, fdr_level,
      List.insertionSort, List.orderedInsert, floatLE, floatLT,
      List.enum, List.enumFrom]
  · norm_num [stepUpFlags, cell_types, fdr_level, List.enum, List.enumFrom,
      List.filter_cons, List.foldl_cons, List.foldl_nil]

/-- The stable sort keeps the length of its input. -/
theorem sortByP_length (l : List (String × Option ℚ)) :
    (sortByP l).length = l.length :=
  (List.perm_insertionSort _ l).length_eq

/-- The stable sort keeps the members of its input. -/
theorem sortByP_mem {a : String × Option ℚ} {l : List (String × Option ℚ)} :
    a ∈ sortByP l ↔ a ∈ l :=
  (List.perm_insertionSort _ l).mem_iff

/-- Mapping a function of the index over an enumerated list is mapping it
over the range of positions. -/
theorem enum_map_index {α β : Type} (l : List α) (f : ℕ → β) :
    l.enum.map (fun e => f e.1) = (List.range l.length).map f := by
  rw [show (fun e : ℕ × α => f e.1) = f ∘ Prod.fst from rfl, ← List.map_map,
    List.enum_map_fst]

/-- The value component of an enumerated-list member is a member of the
list. -/
theorem mem_enum_snd {α : Type} {l : List α} {e : ℕ × α}
    (h : e ∈ l.enum) : e.2 ∈ l := by
  rw [List.mem_enum_iff_getElem?] at h
  exact List.getElem?_mem h

/-- C1 (amended): the corrector is not the step-up rule.  It sorts the
pairs ascending by p-value and flags each rank on its own: with 0-based
index i (rank i + 1), the threshold attached is
(i + 1) / len(cell_types) * 0.05 and the flag holds exactly when the
entry's p-value is strictly below its own threshold.  On the example
p-values 0.011, 0.012, 0.2, 0.2, 0.2 this flags only rank 2, while the
step-up rule would flag ranks 1 and 2. -/
theorem C1_independent_strict_rule (cellTypes : List String)
    (p_values : List (String × Option ℚ)) :
    (∀ r ∈ ttestCorrection cellTypes p_values,
        r.significant = floatLT r.p_value r.threshold) ∧
    (ttestCorrection cellTypes p_values).map CorrectedResult.threshold =
      (List.range p_values.length).map
        (fun i : ℕ => ((i : ℚ) + 1) / cellTypes.length * fdr_level) ∧
    (ttestCorrection cell_types exampleP).map CorrectedResult.significant
      = [false, true, false, false, false] := by
  refine ⟨?_, ?_, ?_⟩
  · intro r hr
    simp only [ttestCorrection, List.mem_map] at hr
    obtain ⟨e, he, rfl⟩ := hr
    rfl
  · rw [ttestCorrection, List.map_map]
    have h := enum_map_index (sortByP p_values)
      (fun i : ℕ => ((i : ℚ) + 1) / cellTypes.length * fdr_level)
    simpa [Function.comp, sortByP_length] using h
  · norm_num [ttestCorrection, sortByP, exampleP, cell_types, fdr_level,
      List.insertionSort, List.orderedInsert, floatLE, floatLT,
      List.enum, List.enumFrom]

/-- Witness for C1_independent_strict_rule: the rank-1 entry of the
example output carries flag false, which is the strict comparison of its
p-value 0.011 with its threshold 0.01. -/
theorem C1_independent_strict_rule_witness :
    (⟨"b_cell", some (11/1000), 1/100, false⟩ : CorrectedResult).significant
      = floatLT (some (11/1000)) (1/100) :=
  (C1_independent_strict_rule cell_types exampleP).1
    ⟨"b_cell", some (11/1000), 1/100, false⟩
    (by norm_num [ttestCorrection, sortByP, exampleP, cell_types, fdr_level,
      List.insertionSort, List.orderedInsert, floatLE, floatLT,
      List.enum, List.enumFrom])

/-- C2: the BH threshold at 0-based index i is (i + 1) / 5 * fdr_level,
where 5 is the length of the fixed population list — not the number of
tested pairs — and in the concrete example with two populations omitted
for empty groups the three thresholds are still 1/100, 2/100, 3/100. -/
theorem C2_fixed_family_size (tested : List (String × Option ℚ)) :
    cell_types.length = 5 ∧
    (dashCorrection tested).map CorrectedResult.threshold =
      (List.range tested.length).map
        (fun i : ℕ => ((i : ℚ) + 1) / 5 * fdr_level) ∧
    (dashTested examplePfun exampleOmitted).length = 3 ∧
    (dashCorrection (dashTested examplePfun exampleOmitted)).map
      CorrectedResult.threshold = [1/100, 1/50, 3/100] := by
  refine ⟨rfl, ?_, ?_, ?_⟩
  · rw [dashCorrection, List.map_map]
    have h := enum_map_index (sortByP tested)
      (fun i : ℕ => ((i : ℚ) + 1) / (cell_types.length : ℚ) * fdr_level)
    simp only [Function.comp, sortByP_length] at h
    rw [show ((cell_types.length : ℚ)) = 5 by norm_num [cell_types]] at h
    exact h
  · norm_num [dashTested, examplePfun, exampleOmitted, List.filterMap_cons]
  · norm_num [dashCorrection, dashTested, examplePfun, exampleOmitted,
      sortByP, cell_types, fdr_level, List.insertionSort,
      List.orderedInsert, floatLE, floatLT, List.enum, List.enumFrom,
      List.filterMap_cons, List.reduceOption_cons_of_some,
      List.reduceOption_nil]

/-- Counting within a constant list. -/
theorem countP_replicate {α : Type} (p : α → Bool) (n : ℕ) (v : α) :
    (List.replicate n v).countP p = if p v then n else 0 := by
  induction n with
  | zero => simp
  | succ k ih =>
    rw [List.replicate_succ, List.countP_cons, ih]
    cases h : p v <;> simp [h]

/-- Stripping the some wrappers from a constant defined list. -/
theorem reduceOption_replicate_some {α : Type} (n : ℕ) (v : α) :
    (List.replicate n (some v)).reduceOption = List.replicate n v := by
  induction n with
  | zero => rfl
  | succ k ih =>
    rw [List.replicate_succ, List.replicate_succ,
      List.reduceOption_cons_of_some, ih]

/-- The mean of a nonempty constant list is its value. -/
theorem meanQ_replicate (n : ℕ) (hn : n ≠ 0) (v : ℚ) :
    meanQ (List.replicate n v) = v := by
  have h : (n : ℚ) ≠ 0 := Nat.cast_ne_zero.mpr hn
  simp only [meanQ, List.sum_replicate, nsmul_eq_mul, List.length_replicate]
  rw [mul_comm, mul_div_assoc, div_self h, mul_one]

/-- The sample variance of a constant list is zero. -/
theorem svarQ_replicate (n : ℕ) (hn : n ≠ 0) (v : ℚ) :
    svarQ (List.replicate n v) = 0 := by
  simp [svarQ, meanQ_replicate n hn, List.map_replicate, List.sum_replicate]

/-- The Welch model returns NaN (none) on identical constant groups: the
pooled squared standard error is zero with equal means, the 0/0 case. -/
theorem ttest_ind_const (tsf : ℚ → ℚ → ℚ) (v : ℚ) (n m : ℕ)
    (hn : 2 ≤ n) (hm : 2 ≤ m) :
    ttest_ind tsf (List.replicate n (some v)) (List.replicate m (some v))
      = none := by
  have hn0 : n ≠ 0 := by omega
  have hm0 : m ≠ 0 := by omega
  simp only [ttest_ind, reduceOption_replicate_some, List.length_replicate,
    svarQ_replicate n hn0 v, svarQ_replicate m hm0 v,
    meanQ_replicate n hn0 v, meanQ_replicate m hm0 v, zero_div, add_zero,
    zero_add]
  simp

/-- The Mann-Whitney model returns p-value 1 on identical constant
groups: the tie-corrected variance vanishes and the corrected numerator
is negative, the z = -infinity case. -/
theorem mannwhitneyu_const (nsf : ℚ → ℚ → ℚ) (v : ℚ) (n m : ℕ)
    (hn : n ≠ 0) (hm : m ≠ 0) :
    mannwhitneyu nsf (List.replicate n v) (List.replicate m v) = some 1 := by
  have hn1 : (1 : ℚ) ≤ n := by exact_mod_cast Nat.one_le_iff_ne_zero.mpr hn
  have hm1 : (1 : ℚ) ≤ m := by exact_mod_cast Nat.one_le_iff_ne_zero.mpr hm
  have hNz : ((n : ℚ) + m) ≠ 0 := by linarith
  have hN1 : ((n : ℚ) + m - 1) ≠ 0 := by
    intro h
    linarith [h]
  have hmid : midrank (List.replicate (n + m) v) v
      = ((n : ℚ) + m + 1) / 2 := by
    unfold midrank
    rw [countP_replicate, countP_replicate]
    simp only [decide_eq_true_eq, lt_irrefl, if_false, if_pos rfl]
    push_cast
    ring
  have htie : tieTerm (List.replicate (n + m) v)
      = ((n : ℚ) + m) ^ 3 - ((n : ℚ) + m) := by
    unfold tieTerm
    rw [List.replicate_dedup (by omega : n + m ≠ 0)]
    simp only [List.map_cons, List.map_nil, List.sum_cons, List.sum_nil,
      countP_replicate, decide_eq_true_eq, if_pos rfl, add_zero]
    push_cast
    ring
  have hfrac : ((((n : ℚ) + m) ^ 3 - ((n : ℚ) + m)) /
      (((n : ℚ) + m) * ((n : ℚ) + m - 1)) : ℚ) = (n : ℚ) + m + 1 := by
    field_simp
    ring
  unfold mannwhitneyu
  rw [if_neg (by simp [List.length_replicate, hn, hm])]
  simp only [List.length_replicate, ← List.replicate_add,
    List.map_replicate, hmid, htie, List.sum_replicate, nsmul_eq_mul]
  rw [hfrac]
  rw [show ((n : ℚ) + m + 1 - ((n : ℚ) + m + 1) : ℚ) = 0 from sub_self _]
  rw [mul_zero]
  rw [if_pos rfl]
  rw [show ((n : ℚ) * (((n : ℚ) + m + 1) / 2) - (n : ℚ) * ((n : ℚ) + 1) / 2
      : ℚ) = (n : ℚ) * m / 2 from by ring]
  rw [show ((n : ℚ) * m - (n : ℚ) * m / 2 : ℚ) = (n : ℚ) * m / 2 from
    by ring]
  rw [max_self]
  rw [if_pos (by norm_num :
    ((n : ℚ) * m / 2 - (n : ℚ) * m / 2 - 1 / 2 : ℚ) < 0)]

/-- C3 (amended): on identical constant groups of any sizes (at least two
observations each, so the sample variances are defined) with any common
value v, the parametric variant does not raise anything — no
IndeterminateTest exists in the code — and yields the NaN p-value (none)
that scipy computes for the 0/0 statistic, while the nonparametric
variant yields the p-value 1, which is at least 0.99. -/
theorem C3_degenerate_groups (tsf nsf : ℚ → ℚ → ℚ) (v : ℚ) (n m : ℕ)
    (hn : 2 ≤ n) (hm : 2 ≤ m) :
    ttest_ind tsf (List.replicate n (some v)) (List.replicate m (some v))
      = none ∧
    mannwhitneyu nsf (List.replicate n v) (List.replicate m v) = some 1 ∧
    (1 : ℚ) ≥ 99/100 :=
  ⟨ttest_ind_const tsf v n m hn hm,
    mannwhitneyu_const nsf v n m (by omega) (by omega), by norm_num⟩

/-- Witness for C3_degenerate_groups at the three-element groups of the
spec example, with value 5. -/
theorem C3_degenerate_groups_witness :
    (2 ≤ 3 ∧ 2 ≤ 3) ∧
    (ttest_ind (fun _ _ => 0) (List.replicate 3 (some (5 : ℚ)))
        (List.replicate 3 (some 5)) = none ∧
      mannwhitneyu (fun _ _ => 0) (List.replicate 3 (5 : ℚ))
        (List.replicate 3 5) = some 1 ∧
      (1 : ℚ) ≥ 99/100) :=
  ⟨⟨by norm_num, by norm_num⟩,
    C3_degenerate_groups (fun _ _ => 0) (fun _ _ => 0) 5 3 3
      (by norm_num) (by norm_num)⟩

/-- Renaming by appendPct keeps every key. -/
theorem appendPct_keys (resp : Bool) (v : Option ℚ)
    (d : List (String × PopData)) (ct : String) :
    (appendPct resp v d ct).map Prod.fst = d.map Prod.fst := by
  unfold appendPct
  rw [List.map_map]
  refine List.map_congr_left (fun e _ => ?_)
  by_cases h : (e.1 == ct) = true
  · rw [Function.comp_apply, if_pos h]
  · rw [Function.comp_apply, if_neg h]

/-- A successful organization step keeps every key. -/
theorem teikoAddRow_keys {d d' : List (String × PopData)}
    {row : String × Option ℚ × Option String}
    (h : teikoAddRow d row = some d') :
    d'.map Prod.fst = d.map Prod.fst := by
  unfold teikoAddRow at h
  split at h
  · split at h
    · cases h; exact appendPct_keys _ _ _ _
    · split at h
      · cases h; exact appendPct_keys _ _ _ _
      · cases h
  · cases h; rfl

/-- Folding the plot_cell_frequencies organization step over rows aborts
whenever some row has a tracked population key and a response label that
is neither yes nor no. -/
theorem teiko_abort (rows : List (String × Option ℚ × Option String)) :
    ∀ (acc : List (String × PopData))
      (r : String × Option ℚ × Option String), r ∈ rows →
      r.1 ∈ acc.map Prod.fst → r.2.2 ≠ some "yes" → r.2.2 ≠ some "no" →
      rows.foldlM teikoAddRow acc = none := by
  induction rows with
  | nil => intro acc r hr; cases hr
  | cons a rest ih =>
    intro acc r hr hct hy hn
    rw [List.foldlM_cons]
    rcases List.mem_cons.mp hr with rfl | hr'
    · have hany : acc.any (fun e => e.1 == r.1) = true := by
        rw [List.any_eq_true]
        obtain ⟨e, he, hee⟩ := List.mem_map.mp hct
        exact ⟨e, he, by simp [hee]⟩
      have hnone : teikoAddRow acc r = none := by
        unfold teikoAddRow
        rw [if_pos hany, if_neg (by simp [hy]), if_neg (by simp [hn])]
      rw [hnone]
      rfl
    · cases hstep : teikoAddRow acc a with
      | none => rfl
      | some acc' =>
        show List.foldlM teikoAddRow acc' rest = none
        exact ih acc' r hr' (by rw [teikoAddRow_keys hstep]; exact hct) hy hn

/-- The keys of the initial dict are the population list. -/
theorem initData_keys : initData.map Prod.fst = cell_types := rfl

/-- Folding the dashboard organization step ignores rows whose response
is neither yes nor no. -/
theorem dash_foldl_filter (rows : List (String × Option ℚ × Option String)) :
    ∀ acc : List (String × PopData),
      rows.foldl dashAddRow acc = (rows.filter
        (fun r => r.2.2 == some "yes" || r.2.2 == some "no")).foldl
          dashAddRow acc := by
  induction rows with
  | nil => intro acc; rfl
  | cons a rest ih =>
    intro acc
    rw [List.foldl_cons]
    by_cases hy : a.2.2 = some "yes"
    · rw [List.filter_cons_of_pos (by simp [hy]), List.foldl_cons]
      exact ih _
    · by_cases hn : a.2.2 = some "no"
      · rw [List.filter_cons_of_pos (by simp [hn]), List.foldl_cons]
        exact ih _
      · rw [List.filter_cons_of_neg (by simp [hy, hn])]
        have hskip : dashAddRow acc a = acc := by
          simp [dashAddRow, beq_iff_eq, hy, hn]
        rw [hskip]
        exact ih acc

/-- C5 (amended): the dashboard organizer silently excludes every row
whose response is not exactly yes or no — organizing a row list equals
organizing its sublist of yes/no rows, with no error and no effect on the
other rows — while plot_cell_frequencies is not silent there: any joined
row of a tracked population with any other response label aborts the
whole analysis with KeyError (none). -/
theorem C5_exclusion (rows : List (String × Option ℚ × Option String)) :
    (∀ (tbl : List SampleRow) (ov : List Obs) (c t : String)
        (p : String) (v : Option ℚ) (rr : Option String),
        (p, v, rr) ∈ analysisRows tbl ov c t →
        ∃ sd ∈ tbl, sd.sample_type = "PBMC" ∧ sd.condition = c ∧
          sd.treatment = t ∧ sd.response = rr) ∧
    organizeDash rows = organizeDash (rows.filter
      (fun r => r.2.2 == some "yes" || r.2.2 == some "no")) ∧
    (∀ r ∈ rows, r.1 ∈ cell_types → r.2.2 ≠ some "yes" →
      r.2.2 ≠ some "no" → organizeTeiko rows = none) := by
  refine ⟨?_, dash_foldl_filter rows initData, ?_⟩
  · intro tbl ov c t p v rr h
    simp only [analysisRows, List.mem_flatMap, List.mem_map,
      List.mem_filter] at h
    obtain ⟨o, ho, sd, ⟨hsd, hcond⟩, heq⟩ := h
    simp only [Bool.and_eq_true, beq_iff_eq] at hcond
    obtain ⟨⟨⟨hs, hst⟩, hc⟩, ht⟩ := hcond
    refine ⟨sd, hsd, hst, hc, ht, ?_⟩
    have h2 := congrArg
      (fun x : String × Option ℚ × Option String => x.2.2) heq
    simpa using h2
  · intro r hr hct hy hn
    exact teiko_abort rows initData r hr
      (by rw [initData_keys]; exact hct) hy hn

/-- Witness for C5_exclusion at a concrete single malformed row. -/
theorem C5_exclusion_witness :
    organizeTeiko [("b_cell", (some 10 : Option ℚ), some "unknown")]
      = none :=
  (C5_exclusion [("b_cell", some 10, some "unknown")]).2.2
    ("b_cell", some 10, some "unknown") (by simp) (by decide)
    (by decide) (by decide)

/-- A pair produced by the dashboard tester comes from a population whose
two groups are both nonempty. -/
theorem dashTested_mem
    {pfun : List (Option ℚ) → List (Option ℚ) → Option ℚ}
    {d : List (String × PopData)} {ct : String} {p : Option ℚ}
    (h : (ct, p) ∈ dashTested pfun d) :
    ∃ pd, (ct, pd) ∈ d ∧ pd.yes ≠ [] ∧ pd.no ≠ [] := by
  simp only [dashTested, List.mem_filterMap] at h
  obtain ⟨e, he, hsome⟩ := h
  by_cases hc : 0 < e.2.yes.length ∧ 0 < e.2.no.length
  · rw [if_pos hc] at hsome
    injection hsome with h'
    have h1 : e.1 = ct := congrArg Prod.fst h'
    refine ⟨e.2, ?_, ?_, ?_⟩
    · rw [← h1]
      exact he
    · exact List.length_pos.mp hc.1
    · exact List.length_pos.mp hc.2
  · rw [if_neg hc] at hsome
    cases hsome

/-- C6 (amended): in the dashboard, a population with an empty group is
omitted from the tested sequence and never appears in the corrector
output either; in analyze_frequencies_ttest no population is omitted —
the tester output keys are exactly the organized population keys, an
empty group only making the attached p-value NaN. -/
theorem C6_empty_group_omission :
    (∀ (pfun : List (Option ℚ) → List (Option ℚ) → Option ℚ)
        (d : List (String × PopData)) (ct : String) (p : Option ℚ),
        (ct, p) ∈ dashTested pfun d →
        ∃ pd, (ct, pd) ∈ d ∧ pd.yes ≠ [] ∧ pd.no ≠ []) ∧
    (∀ (pfun : List (Option ℚ) → List (Option ℚ) → Option ℚ)
        (d : List (String × PopData)) (r : CorrectedResult),
        r ∈ dashCorrection (dashTested pfun d) →
        ∃ pd, (r.cell_type, pd) ∈ d ∧ pd.yes ≠ [] ∧ pd.no ≠ []) ∧
    (∀ (tsf : ℚ → ℚ → ℚ) (d : List (String × PopData)),
        (teikoTtestPvalues tsf d).map Prod.fst = d.map Prod.fst) := by
  refine ⟨fun _ _ _ _ h => dashTested_mem h, ?_, ?_⟩
  · intro pfun d r hr
    simp only [dashCorrection, List.mem_map] at hr
    obtain ⟨e, he, rfl⟩ := hr
    have h3 : e.2 ∈ dashTested pfun d := sortByP_mem.mp (mem_enum_snd he)
    exact dashTested_mem h3
  · intro tsf d
    simp [teikoTtestPvalues]

/-- Witness for C6_empty_group_omission: a tested population of the
concrete data has both groups nonempty, and the Welch loop keys equal the
organized keys there. -/
theorem C6_empty_group_omission_witness :
    (∃ pd, ("cd8_t_cell", pd) ∈ emptyGroupData ∧
      pd.yes ≠ [] ∧ pd.no ≠ []) ∧
    (teikoTtestPvalues (fun _ _ => 0) emptyGroupData).map Prod.fst =
      emptyGroupData.map Prod.fst :=
  ⟨C6_empty_group_omission.1 (fun _ _ => none) emptyGroupData "cd8_t_cell"
      none (by decide),
    C6_empty_group_omission.2.2 (fun _ _ => 0) emptyGroupData⟩

end Teiko
